import Mathlib

/-!
# ParkSpotLocator: the parking-reminder core of `script.js`

A shallow embedding of the functions of `src/script.js` that own the persisted
parking record and the reminder timer:

* `handleParkingMarking` (lines 821-886) and the completion handler of its
  address lookup (lines 867-873),
* `scheduleReminder` (lines 790-806),
* `checkExistingReminder` (lines 151-180),
* `clearParking` (lines 712-741),
* `findParking` (lines 646-709),
* `showReminderMessage` (lines 183-209) as the observable "reminder shown" event.

Modelling conventions.

* Script numbers are IEEE-754 doubles.  A finite double is represented by the
  rational it denotes, and every arithmetic result is rounded to the nearest
  double, ties to even (`roundDouble`).  The sign of zero is not tracked.
* The `localStorage` slot `parkedLocation` holds JSON text.  The slot is
  represented by the object `JSON.parse` returns for that text (`SavedInfo`),
  and `JSON_stringify` maps the in-memory object to the object one gets back
  after `JSON.stringify` and `JSON.parse`.
* Timestamps are instants in milliseconds since the epoch; `toISOString` and
  `new Date(..).getTime()` are mutually inverse on them.
* The clock reading, the position and the two form readings of
  `handleParkingMarking` are inputs of the step functions.
* Presentation-only effects (message area, screen-reader announcements, map
  view, form controls, location details text) are not part of the state.
-/

namespace ParkSpot

/-! ## Numbers -/

/-- A script number: a finite double (as the rational it denotes), `NaN`, or
an infinity (`negative = true` for `-Infinity`). -/
inductive JSNumber
  | num (q : ℚ)
  | nan
  | inf (negative : Bool)
deriving DecidableEq, Repr

/-- Nearest natural number to `n / d`, ties to the even neighbour. -/
def roundHalfEven (n d : ℕ) : ℕ :=
  let q := n / d
  let r := n % d
  if 2 * r < d then q
  else if d < 2 * r then q + 1
  else if q % 2 = 0 then q else q + 1

/-- Number of binary digits of `n`, by halving; `fuel = n` always suffices. -/
def bitLength : ℕ → ℕ → ℕ
  | 0, _ => 0
  | fuel + 1, n => if n = 0 then 0 else bitLength fuel (n / 2) + 1

/-- The integer `k` with `2 ^ k ≤ n / d < 2 ^ (k + 1)`, for positive `n`, `d`. -/
def floorLog2 (n d : ℕ) : ℤ :=
  let k : ℤ := (bitLength n n : ℤ) - (bitLength d d : ℤ)
  if 0 ≤ k then (if d * 2 ^ k.toNat ≤ n then k else k - 1)
  else (if d ≤ n * 2 ^ (-k).toNat then k else k - 1)

/-- Round the positive ratio `n / d` (with the given sign) to binary64:
53 significant bits, least exponent `-1074` (subnormals), overflow to an
infinity once the rounded magnitude needs more than 1024 bits. -/
def roundRatio (negative : Bool) (n d : ℕ) : JSNumber :=
  let e : ℤ := max (floorLog2 n d - 52) (-1074)
  let m : ℕ :=
    if 0 ≤ e then roundHalfEven n (d * 2 ^ e.toNat) else roundHalfEven (n * 2 ^ (-e).toNat) d
  let v : ℕ := m * 2 ^ e.toNat
  if 1024 < bitLength v v then .inf negative
  else .num (mkRat (if negative then -(v : ℤ) else (v : ℤ)) (2 ^ (-e).toNat))

/-- Round an exact result to the nearest double.  Integers of magnitude at most
`2 ^ 53` are doubles already; every other value goes through `roundRatio`. -/
def roundDouble (q : ℚ) : JSNumber :=
  if q.den = 1 ∧ q.num.natAbs ≤ 2 ^ 53 then .num q
  else roundRatio (decide (q.num < 0)) q.num.natAbs q.den

namespace JSNumber

/-- Unary minus. -/
def neg : JSNumber → JSNumber
  | num q => num (-q)
  | nan => nan
  | inf s => inf (!s)

/-- The script operator `+` on numbers. -/
def add : JSNumber → JSNumber → JSNumber
  | num a, num b => roundDouble (a + b)
  | nan, _ => nan
  | _, nan => nan
  | inf s, inf t => if s = t then inf s else nan
  | inf s, num _ => inf s
  | num _, inf t => inf t

/-- The script operator `-` on numbers. -/
def sub (a b : JSNumber) : JSNumber := a.add b.neg

/-- The script operator `*` on numbers. -/
def mul : JSNumber → JSNumber → JSNumber
  | num a, num b => roundDouble (a * b)
  | nan, _ => nan
  | _, nan => nan
  | inf s, inf t => inf (s != t)
  | inf s, num b => if b = 0 then nan else inf (s != decide (b < 0))
  | num a, inf t => if a = 0 then nan else inf (decide (a < 0) != t)

/-- The script operator `/` on numbers (a zero divisor is taken as `+0`; the
script only divides by the literal `60000`). -/
def div : JSNumber → JSNumber → JSNumber
  | num a, num b =>
    if b = 0 then (if a = 0 then nan else inf (decide (a < 0))) else roundDouble (a / b)
  | nan, _ => nan
  | _, nan => nan
  | inf _, inf _ => nan
  | inf s, num b => inf (s != decide (b < 0))
  | num _, inf _ => num 0

/-- The script comparison `a < b`. -/
def lt : JSNumber → JSNumber → Bool
  | num a, num b => decide (a < b)
  | nan, _ => false
  | _, nan => false
  | inf s, inf t => s && !t
  | inf s, num _ => s
  | num _, inf t => !t

/-- The script comparison `a >= b`. -/
def ge : JSNumber → JSNumber → Bool
  | num a, num b => decide (b ≤ a)
  | nan, _ => false
  | _, nan => false
  | inf s, inf t => !s || t
  | inf s, num _ => !s
  | num _, inf t => t

/-- The script comparison `a > b`. -/
def gt (a b : JSNumber) : Bool := b.lt a

/-- Truthiness of a number: everything but `0` and `NaN`. -/
def truthy : JSNumber → Bool
  | num q => decide (q ≠ 0)
  | nan => false
  | inf _ => true

end JSNumber

/-! ## Data -/

/-- A coordinate pair `{lat, lng}`. -/
structure Position where
  lat : ℚ
  lng : ℚ
deriving DecidableEq, Repr

/-- The object literal `parkingInfo` built by `handleParkingMarking`
(lines 849-856).  `timestamp` is the instant whose ISO string is stored. -/
structure ParkingInfo where
  position : Position
  address : String
  timestamp : ℤ
  reminderEnabled : Bool
  reminderTime : JSNumber
deriving DecidableEq, Repr

/-- What `JSON.parse` yields for the text in the `parkedLocation` slot.
A missing (or `null`) property is `none`; `timestamp` is the time value
`new Date(timestamp).getTime()` of the stored string, `none` when that is
`NaN`; `reminderEnabled` is the truthiness of the property. -/
structure SavedInfo where
  position : Option Position
  address : Option String
  timestamp : Option ℤ
  reminderEnabled : Bool
  reminderTime : Option ℚ
deriving DecidableEq, Repr

/-- `JSON.parse(JSON.stringify(parkingInfo))`: finite numbers, strings and
booleans survive unchanged; `NaN` and the infinities are written as `null`. -/
def JSON_stringify (p : ParkingInfo) : SavedInfo :=
  { position := some p.position
    address := some p.address
    timestamp := some p.timestamp
    reminderEnabled := p.reminderEnabled
    reminderTime :=
      match p.reminderTime with
      | .num q => some q
      | _ => none }

/-- A pending `setTimeout` whose callback is `showReminderMessage`
(lines 803-805): its handle and the delay argument in milliseconds. -/
structure Timer where
  id : ℕ
  delay : JSNumber
deriving DecidableEq, Repr

/-- The mutable state the core functions read and write. -/
structure State where
  /-- The `localStorage` slot `parkedLocation`; `none` when absent. -/
  parkedLocation : Option SavedInfo
  /-- The global `reminderTimeout` (line 7); `none` is `null`. -/
  reminderTimeout : Option ℕ
  /-- Pending reminder timers, oldest first. -/
  timers : List Timer
  /-- The handle the next `setTimeout` returns (handles are never reused). -/
  nextTimerId : ℕ
  /-- The global `marker` (line 3); `none` is `null`. -/
  marker : Option Position
  /-- Whether the `find-location` button is shown. -/
  findButtonVisible : Bool
  /-- Number of calls of `showReminderMessage` so far. -/
  remindersShown : ℕ
deriving DecidableEq, Repr

/-- State of a freshly loaded page whose storage slot holds `slot`. -/
def initialState (slot : Option SavedInfo) : State :=
  { parkedLocation := slot
    reminderTimeout := none
    timers := []
    nextTimerId := 1
    marker := none
    findButtonVisible := false
    remindersShown := 0 }

/-! ## Operations -/

/-- `showReminderMessage()` (lines 183-209): one "reminder shown" event. -/
def showReminderMessage (s : State) : State :=
  { s with remindersShown := s.remindersShown + 1 }

/-- `clearTimeout(handle)`: the timer with that handle is no longer pending. -/
def clearTimeout (handle : ℕ) (s : State) : State :=
  { s with timers := s.timers.filter (fun t => decide (t.id ≠ handle)) }

/-- Truthiness of the value of `reminderTimeout`: a non-zero handle. -/
def handleTruthy : Option ℕ → Bool
  | some h => decide (h ≠ 0)
  | none => false

/-- `scheduleReminder(minutes)` (lines 790-806). -/
def scheduleReminder (minutes : JSNumber) (s : State) : State :=
  let s1 :=
    match s.reminderTimeout with
    | some h => if handleTruthy (some h) then clearTimeout h s else s
    | none => s
  { s1 with
    timers := s1.timers ++ [{ id := s1.nextTimerId, delay := (minutes.mul (.num 60)).mul (.num 1000) }]
    reminderTimeout := some s1.nextTimerId
    nextTimerId := s1.nextTimerId + 1 }

/-- The timer with handle `id` expires: it leaves the pending set and its
callback (lines 803-805) runs.  No effect when no such timer is pending. -/
def timerFires (id : ℕ) (s : State) : State :=
  if s.timers.any (fun t => decide (t.id = id)) then
    showReminderMessage { s with timers := s.timers.filter (fun t => decide (t.id ≠ id)) }
  else s

/-- `new Date(parkingInfo.timestamp).getTime()`. -/
def dateGetTime : Option ℤ → JSNumber
  | some t => .num t
  | none => .nan

/-- Truthiness of the property `parkingInfo.reminderTime` as read back from
storage. -/
def savedLeadTruthy : Option ℚ → Bool
  | some q => (JSNumber.num q).truthy
  | none => false

/-- The value of `parkingInfo.reminderTime` used as a number (only reached
when it is truthy). -/
def savedLead : Option ℚ → JSNumber
  | some q => .num q
  | none => .num 0

/-- `checkExistingReminder()` (lines 151-180), run with the clock at `now`. -/
def checkExistingReminder (now : ℤ) (s : State) : State :=
  match s.parkedLocation with
  | none => s
  | some parkingInfo =>
    let s1 := { s with findButtonVisible := true }
    if parkingInfo.reminderEnabled && savedLeadTruthy parkingInfo.reminderTime then
      let parkingTime := dateGetTime parkingInfo.timestamp
      let reminderTime :=
        parkingTime.add (((savedLead parkingInfo.reminderTime).mul (.num 60)).mul (.num 1000))
      let currentTime := JSNumber.num now
      if currentTime.ge reminderTime then
        showReminderMessage s1
      else if currentTime.lt reminderTime then
        let remainingTime := reminderTime.sub currentTime
        scheduleReminder (remainingTime.div (.num 60000)) s1
      else s1
    else s1

/-- `clearParking()` (lines 712-741). -/
def clearParking (s : State) : State :=
  let s1 := { s with parkedLocation := none, marker := none, findButtonVisible := false }
  match s1.reminderTimeout with
  | some h =>
    if handleTruthy (some h) then { clearTimeout h s1 with reminderTimeout := none } else s1
  | none => s1

/-- The object `parkingInfo` of a call of `handleParkingMarking(pos)` made at
clock `now` with the form reading `reminderEnabled` (checkbox) and
`reminderTime` (`parseInt` of the input value). -/
def markedInfo (pos : Position) (reminderEnabled : Bool) (reminderTime : JSNumber)
    (now : ℤ) : ParkingInfo :=
  { position := pos
    address := "Getting address..."
    timestamp := now
    reminderEnabled := reminderEnabled
    reminderTime := reminderTime }

/-- `handleParkingMarking(pos)` (lines 821-886) up to its return; the address
lookup it starts completes later, in `addressResolved`. -/
def handleParkingMarking (pos : Position) (reminderEnabled : Bool) (reminderTime : JSNumber)
    (now : ℤ) (s : State) : State :=
  let parkingInfo := markedInfo pos reminderEnabled reminderTime now
  let s1 :=
    { s with
      marker := some pos
      findButtonVisible := true
      parkedLocation := some (JSON_stringify parkingInfo) }
  if reminderEnabled && reminderTime.gt (.num 0) then
    scheduleReminder reminderTime s1
  else s1

/-- Truthiness of the value the address lookup resolves to: a non-empty
string (`none` is `null` or `undefined`). -/
def addressTruthy : Option String → Bool
  | some a => decide (a ≠ "")
  | none => false

/-- The completion handler of `getAddressFromCoordinates(pos)` (lines 867-873),
run with the object `parkingInfo` its closure captured at mark time. -/
def addressResolved (parkingInfo : ParkingInfo) (address : Option String) (s : State) : State :=
  match address with
  | some a =>
    if addressTruthy (some a) then
      { s with parkedLocation := some (JSON_stringify { parkingInfo with address := a }) }
    else s
  | none => s

/-- One call of `handleParkingMarking` with all its inputs. -/
structure MarkRequest where
  pos : Position
  reminderEnabled : Bool
  reminderTime : JSNumber
  now : ℤ
deriving DecidableEq, Repr

/-- Run the mark requests in order. -/
def markAll (requests : List MarkRequest) (s : State) : State :=
  requests.foldl (fun st r => handleParkingMarking r.pos r.reminderEnabled r.reminderTime r.now st) s

/-- Handles are positive, at most one reminder timer is pending, and a pending
reminder timer is the one `reminderTimeout` refers to. -/
def TimerInvariant (s : State) : Prop :=
  0 < s.nextTimerId ∧ s.timers.length ≤ 1 ∧ (∀ h, s.reminderTimeout = some h → 0 < h) ∧
    ∀ t ∈ s.timers, s.reminderTimeout = some t.id

/-- Let the timers with the given handles expire, in order. -/
def fireAll (ids : List ℕ) (s : State) : State :=
  ids.foldl (fun st i => timerFires i st) s

/-- One event in the life of the page: a call of `handleParkingMarking`, a
call of `clearParking`, a run of `checkExistingReminder` at clock `now`, the
expiry of the timer with handle `id`, or the completion of an address lookup
whose closure holds `parkingInfo`. -/
inductive Action
  | mark (request : MarkRequest)
  | clear
  | restore (now : ℤ)
  | fire (id : ℕ)
  | resolved (parkingInfo : ParkingInfo) (address : Option String)
deriving DecidableEq, Repr

/-- The state after one event. -/
def step (s : State) : Action → State
  | .mark r => handleParkingMarking r.pos r.reminderEnabled r.reminderTime r.now s
  | .clear => clearParking s
  | .restore now => checkExistingReminder now s
  | .fire id => timerFires id s
  | .resolved parkingInfo address => addressResolved parkingInfo address s

/-- The state after a sequence of events. -/
def run (actions : List Action) (s : State) : State :=
  actions.foldl step s

/-- A reload of the page: storage persists, the script globals and the timers
start afresh (lines 2-9).  The count of reminders shown is kept, as it counts
events over the whole history. -/
def reloadPage (s : State) : State :=
  { initialState s.parkedLocation with remindersShown := s.remindersShown }

/-- What `findParking` does outside the state: a `showMessage(message, type)`
call, a request to `navigator.geolocation.getCurrentPosition`, or the opening
of walking directions from `origin` to `destination` in a new tab. -/
inductive Effect
  | showMessage (message : String) (type : String)
  | getCurrentPosition
  | openDirections (origin destination : Position)
deriving DecidableEq, Repr

/-- `findParking()` (lines 646-709) up to its return, with the constant
`supportsGeolocation` (line 13) as a parameter: the effects it produces, in
order, and the state it leaves. -/
def findParking (supportsGeolocation : Bool) (s : State) : List Effect × State :=
  match s.parkedLocation with
  | none => ([.showMessage "No parking location saved!" "error"], s)
  | some savedLocation =>
    match savedLocation.position with
    | none =>
      ([.showMessage "Invalid parking location data. Please mark your spot again." "error"], s)
    | some _ =>
      if supportsGeolocation then ([.getCurrentPosition], s)
      else
        ([.showMessage
            "Unable to get directions - your browser doesn\x27t support geolocation." "error"], s)

/-- The success callback of the position request of `findParking`
(lines 669-691), for the saved position `pos` and the current position. -/
def findParkingPositionFound (pos currentPos : Position) (s : State) : List Effect × State :=
  ([.openDirections currentPos pos, .showMessage "Directions opened in a new tab!" "success"],
    { s with marker := some pos })


/-! ## Arithmetic on exactly representable integers -/

theorem roundDouble_exact (q : ℚ) (z : ℤ) (hz : q = (z : ℚ)) (h : z.natAbs ≤ 2 ^ 53) :
    roundDouble q = .num q := by
  subst hz
  unfold roundDouble
  rw [if_pos]
  exact ⟨by simp, by simpa using h⟩

theorem JSNumber.mul_exact (a b : ℚ) (z : ℤ) (hz : a * b = (z : ℚ)) (h : z.natAbs ≤ 2 ^ 53) :
    (JSNumber.num a).mul (.num b) = .num (a * b) :=
  roundDouble_exact (a * b) z hz h

theorem JSNumber.add_exact (a b : ℚ) (z : ℤ) (hz : a + b = (z : ℚ)) (h : z.natAbs ≤ 2 ^ 53) :
    (JSNumber.num a).add (.num b) = .num (a + b) :=
  roundDouble_exact (a + b) z hz h

theorem JSNumber.sub_exact (a b : ℚ) (z : ℤ) (hz : a - b = (z : ℚ)) (h : z.natAbs ≤ 2 ^ 53) :
    (JSNumber.num a).sub (.num b) = .num (a - b) := by
  have := roundDouble_exact (a + -b) z (by rw [← hz]; ring) h
  simpa [JSNumber.sub, JSNumber.add, JSNumber.neg, sub_eq_add_neg] using this

/-- Milliseconds of a whole number of minutes, as `scheduleReminder` computes
them, are exact while they stay within `2 ^ 53`. -/
theorem JSNumber.minutes_to_ms (n : ℕ) (h : n * 60000 ≤ 2 ^ 53) :
    ((JSNumber.num (n : ℚ)).mul (.num 60)).mul (.num 1000) = .num ((n : ℚ) * 60000) := by
  have hp : (2 : ℕ) ^ 53 = 9007199254740992 := by norm_num
  have h1 : ((n : ℤ) * 60).natAbs ≤ 2 ^ 53 := by rw [hp] at h ⊢; omega
  have h2 : ((n : ℤ) * 60000).natAbs ≤ 2 ^ 53 := by rw [hp] at h ⊢; omega
  rw [JSNumber.mul_exact (n : ℚ) 60 ((n : ℤ) * 60) (by push_cast; ring) h1,
    JSNumber.mul_exact ((n : ℚ) * 60) 1000 ((n : ℤ) * 60000) (by push_cast; ring) h2]
  congr 1
  ring

/-! ## The timer invariant -/

theorem timers_eq_nil_of_none {s : State} (h : TimerInvariant s) (hn : s.reminderTimeout = none) :
    s.timers = [] := by
  obtain ⟨_, _, _, hall⟩ := h
  apply List.eq_nil_iff_forall_not_mem.mpr
  intro t ht
  have := hall t ht
  rw [hn] at this
  cases this

theorem filter_handle_eq_nil {s : State} (h : TimerInvariant s) {k : ℕ}
    (hk : s.reminderTimeout = some k) :
    s.timers.filter (fun t => decide (t.id ≠ k)) = [] := by
  obtain ⟨_, _, _, hall⟩ := h
  apply List.filter_eq_nil_iff.mpr
  intro t ht
  have := hall t ht
  rw [hk] at this
  simp only [Option.some.injEq] at this
  simp [this]

theorem initialState_invariant (slot : Option SavedInfo) : TimerInvariant (initialState slot) := by
  simp [TimerInvariant, initialState]

theorem scheduleReminder_timers (minutes : JSNumber) {s : State} (h : TimerInvariant s) :
    (scheduleReminder minutes s).timers =
      [{ id := s.nextTimerId, delay := (minutes.mul (.num 60)).mul (.num 1000) }] := by
  unfold scheduleReminder
  cases hr : s.reminderTimeout with
  | none => simp [timers_eq_nil_of_none h hr]
  | some k =>
    have hpos : 0 < k := h.2.2.1 k hr
    have hk : handleTruthy (some k) = true := by simp [handleTruthy]; omega
    have hf := filter_handle_eq_nil h hr
    simp only [hk, clearTimeout, if_true, hf, List.nil_append]

theorem scheduleReminder_reminderTimeout (minutes : JSNumber) (s : State) :
    (scheduleReminder minutes s).reminderTimeout = some s.nextTimerId := by
  unfold scheduleReminder
  cases s.reminderTimeout with
  | none => rfl
  | some k => by_cases hk : handleTruthy (some k) = true <;> simp [hk, clearTimeout]

theorem scheduleReminder_nextTimerId (minutes : JSNumber) (s : State) :
    (scheduleReminder minutes s).nextTimerId = s.nextTimerId + 1 := by
  unfold scheduleReminder
  cases s.reminderTimeout with
  | none => rfl
  | some k => by_cases hk : handleTruthy (some k) = true <;> simp [hk, clearTimeout]

theorem scheduleReminder_parkedLocation (minutes : JSNumber) (s : State) :
    (scheduleReminder minutes s).parkedLocation = s.parkedLocation := by
  unfold scheduleReminder
  cases s.reminderTimeout with
  | none => rfl
  | some k => by_cases hk : handleTruthy (some k) = true <;> simp [hk, clearTimeout]

theorem scheduleReminder_remindersShown (minutes : JSNumber) (s : State) :
    (scheduleReminder minutes s).remindersShown = s.remindersShown := by
  unfold scheduleReminder
  cases s.reminderTimeout with
  | none => rfl
  | some k => by_cases hk : handleTruthy (some k) = true <;> simp [hk, clearTimeout]

theorem scheduleReminder_invariant (minutes : JSNumber) {s : State} (h : TimerInvariant s) :
    TimerInvariant (scheduleReminder minutes s) := by
  refine ⟨?_, ?_, ?_, ?_⟩
  · rw [scheduleReminder_nextTimerId]; omega
  · rw [scheduleReminder_timers minutes h]; simp
  · intro k hk
    rw [scheduleReminder_reminderTimeout] at hk
    cases hk
    exact h.1
  · intro t ht
    rw [scheduleReminder_timers minutes h] at ht
    rw [scheduleReminder_reminderTimeout]
    simp only [List.mem_singleton] at ht
    rw [ht]

theorem handleParkingMarking_invariant (pos : Position) (reminderEnabled : Bool)
    (reminderTime : JSNumber) (now : ℤ) {s : State} (h : TimerInvariant s) :
    TimerInvariant (handleParkingMarking pos reminderEnabled reminderTime now s) := by
  unfold handleParkingMarking
  simp only
  split
  · exact scheduleReminder_invariant _ h
  · exact h

theorem markAll_invariant (requests : List MarkRequest) {s : State} (h : TimerInvariant s) :
    TimerInvariant (markAll requests s) := by
  induction requests generalizing s with
  | nil => exact h
  | cons r rest ih =>
    exact ih (handleParkingMarking_invariant r.pos r.reminderEnabled r.reminderTime r.now h)

theorem clearParking_parkedLocation (s : State) : (clearParking s).parkedLocation = none := by
  unfold clearParking
  cases hr : s.reminderTimeout with
  | none => simp [hr]
  | some k => by_cases hk : handleTruthy (some k) = true <;> simp [hr, hk, clearTimeout]

theorem clearParking_reminderTimeout {s : State} (h : TimerInvariant s) :
    (clearParking s).reminderTimeout = none := by
  unfold clearParking
  cases hr : s.reminderTimeout with
  | none => simp [hr]
  | some k =>
    have hpos : 0 < k := h.2.2.1 k hr
    have hk : handleTruthy (some k) = true := by simp [handleTruthy]; omega
    simp [hr, hk]

theorem clearParking_timers {s : State} (h : TimerInvariant s) : (clearParking s).timers = [] := by
  unfold clearParking
  cases hr : s.reminderTimeout with
  | none => simp [hr, timers_eq_nil_of_none h hr]
  | some k =>
    have hpos : 0 < k := h.2.2.1 k hr
    have hk : handleTruthy (some k) = true := by simp [handleTruthy]; omega
    have hf := filter_handle_eq_nil h hr
    simp only [hr, hk, clearTimeout, if_true, hf]

theorem timerFires_of_no_timers (id : ℕ) {s : State} (h : s.timers = []) : timerFires id s = s := by
  simp [timerFires, h]

theorem fireAll_of_no_timers (ids : List ℕ) {s : State} (h : s.timers = []) :
    fireAll ids s = s := by
  induction ids with
  | nil => rfl
  | cons i rest ih =>
    show fireAll rest (timerFires i s) = s
    rw [timerFires_of_no_timers i h]
    exact ih

/-! ## Mark, clear and address enrichment -/

/-- C1. Mark/load round trip: right after `handleParkingMarking(pos)` with the
form reading `reminderEnabled` and a lead time that is a number (`parseInt` did
not yield `NaN`), the slot `parkedLocation` holds a record whose `position`,
`reminderEnabled` and `reminderTime` are exactly `pos`, `reminderEnabled` and
the lead. -/
theorem C1_mark_load_round_trip (pos : Position) (reminderEnabled : Bool) (lead : ℚ) (now : ℤ)
    (s : State) :
    ∃ r : SavedInfo,
      (handleParkingMarking pos reminderEnabled (.num lead) now s).parkedLocation = some r ∧
        r.position = some pos ∧ r.reminderEnabled = reminderEnabled ∧
        r.reminderTime = some lead := by
  refine ⟨JSON_stringify (markedInfo pos reminderEnabled (.num lead) now), ?_, rfl, rfl, rfl⟩
  unfold handleParkingMarking
  simp only
  split
  · rw [scheduleReminder_parkedLocation]
  · rfl

/-- C2. After any finite sequence of `handleParkingMarking` calls followed by
`clearParking`, the slot `parkedLocation` is absent, `reminderTimeout` is
`null`, no reminder timer is pending, and no timer expiry shows a reminder. -/
theorem C2_clear_after_marks (requests : List MarkRequest) (s : State) (h : TimerInvariant s) :
    (clearParking (markAll requests s)).parkedLocation = none ∧
      (clearParking (markAll requests s)).reminderTimeout = none ∧
      (clearParking (markAll requests s)).timers = [] ∧
      ∀ ids : List ℕ,
        (fireAll ids (clearParking (markAll requests s))).remindersShown =
          (clearParking (markAll requests s)).remindersShown := by
  have hinv := markAll_invariant requests h
  refine ⟨clearParking_parkedLocation _, clearParking_reminderTimeout hinv,
    clearParking_timers hinv, ?_⟩
  intro ids
  rw [fireAll_of_no_timers ids (clearParking_timers hinv)]

/-- C2, at two marks with reminders of 30 and 45 minutes on a fresh page. -/
theorem C2_clear_after_marks_witness :
    TimerInvariant (initialState none) ∧
      (clearParking (markAll
        [⟨⟨1, 2⟩, true, .num 30, 0⟩, ⟨⟨3, 4⟩, true, .num 45, 1000⟩] (initialState none))).timers
        = [] :=
  ⟨initialState_invariant none,
    (C2_clear_after_marks [⟨⟨1, 2⟩, true, .num 30, 0⟩, ⟨⟨3, 4⟩, true, .num 45, 1000⟩]
      (initialState none) (initialState_invariant none)).2.2.1⟩

/-- C3, as stated, fails: mark, clear, then the lookup resolving to
`"Main St"` leaves a record in the slot again. -/
theorem C3_enrichment_resurrects_record :
    ¬ (addressResolved (markedInfo ⟨1, 2⟩ false (.num 30) 5) (some "Main St")
        (clearParking (handleParkingMarking ⟨1, 2⟩ false (.num 30) 5 (initialState none)))
      ).parkedLocation = none := by
  simp [addressResolved, addressTruthy]

/-- C3, amended. When `handleParkingMarking(pos)` is followed by `clearParking`
and only then the address lookup completes, the slot stays absent exactly when
the lookup yields no address (`null`, `undefined` or the empty string); a
non-empty address makes the handler write the mark-time record, with that
address, into the slot. -/
theorem C3_enrichment_after_clear (pos : Position) (reminderEnabled : Bool)
    (reminderTime : JSNumber) (now : ℤ) (address : Option String) (s : State) :
    (addressResolved (markedInfo pos reminderEnabled reminderTime now) address
        (clearParking (handleParkingMarking pos reminderEnabled reminderTime now s))
      ).parkedLocation =
      match address with
      | some a =>
        if a ≠ "" then
          some (JSON_stringify
            { markedInfo pos reminderEnabled reminderTime now with address := a })
        else none
      | none => none := by
  cases address with
  | none => simp [addressResolved, clearParking_parkedLocation]
  | some a =>
    by_cases ha : a = ""
    · simp [addressResolved, addressTruthy, ha, clearParking_parkedLocation]
    · simp [addressResolved, addressTruthy, ha]

theorem handleParkingMarking_parkedLocation (pos : Position) (reminderEnabled : Bool)
    (reminderTime : JSNumber) (now : ℤ) (s : State) :
    (handleParkingMarking pos reminderEnabled reminderTime now s).parkedLocation =
      some (JSON_stringify (markedInfo pos reminderEnabled reminderTime now)) := by
  unfold handleParkingMarking
  simp only
  split
  · rw [scheduleReminder_parkedLocation]
  · rfl

theorem timerFires_shown_le (i : ℕ) (s : State) :
    (timerFires i s).remindersShown + (timerFires i s).timers.length ≤
      s.remindersShown + s.timers.length := by
  unfold timerFires
  split
  · rename_i hany
    have hlt : (s.timers.filter (fun t => decide (t.id ≠ i))).length < s.timers.length := by
      rw [List.length_filter_lt_length_iff_exists]
      obtain ⟨t, ht, hid⟩ := List.any_eq_true.mp hany
      exact ⟨t, ht, by simpa using hid⟩
    simp only [showReminderMessage]
    omega
  · exact le_refl _

theorem fireAll_shown_le (ids : List ℕ) (s : State) :
    (fireAll ids s).remindersShown ≤ s.remindersShown + s.timers.length := by
  induction ids generalizing s with
  | nil => exact Nat.le_add_right _ _
  | cons i rest ih =>
    show (fireAll rest (timerFires i s)).remindersShown ≤ _
    have h1 := ih (timerFires i s)
    have h2 := timerFires_shown_le i s
    omega

/-- C4, as stated, fails: the lookup started by a first mark at `(1, 2)`
resolves to `"Main St"` after a second mark at `(3, 4)`; the slot then holds
the first mark's record again, not the second one. -/
theorem C4_stale_enrichment_overwrites :
    (addressResolved (markedInfo ⟨1, 2⟩ false (.num 30) 5) (some "Main St")
        (handleParkingMarking ⟨3, 4⟩ true (.num 45) 9
          (handleParkingMarking ⟨1, 2⟩ false (.num 30) 5 (initialState none)))).parkedLocation =
      some { position := some ⟨1, 2⟩, address := some "Main St", timestamp := some 5,
             reminderEnabled := false, reminderTime := some 30 } ∧
    ¬ (addressResolved (markedInfo ⟨1, 2⟩ false (.num 30) 5) (some "Main St")
        (handleParkingMarking ⟨3, 4⟩ true (.num 45) 9
          (handleParkingMarking ⟨1, 2⟩ false (.num 30) 5 (initialState none)))).parkedLocation =
      (handleParkingMarking ⟨3, 4⟩ true (.num 45) 9
          (handleParkingMarking ⟨1, 2⟩ false (.num 30) 5 (initialState none))).parkedLocation := by
  rw [handleParkingMarking_parkedLocation]
  simp [addressResolved, addressTruthy, JSON_stringify, markedInfo]

/-- C4, amended. The completion handler has no position check: when the lookup
started by `handleParkingMarking(p1)` completes after a second mark, a
non-empty address makes it overwrite the slot with the first mark's record
carrying that address (position `p1`, the first mark's timestamp and reminder
settings); only when the lookup yields no address (`null`, `undefined` or the
empty string) does the record of the second mark stay as written. -/
theorem C4_enrichment_after_second_mark (p1 p2 : Position) (enabled1 enabled2 : Bool)
    (lead1 lead2 : JSNumber) (t1 t2 : ℤ) (address : Option String) (s : State) :
    (addressResolved (markedInfo p1 enabled1 lead1 t1) address
        (handleParkingMarking p2 enabled2 lead2 t2
          (handleParkingMarking p1 enabled1 lead1 t1 s))).parkedLocation =
      match address with
      | some a =>
        if a ≠ "" then some (JSON_stringify { markedInfo p1 enabled1 lead1 t1 with address := a })
        else some (JSON_stringify (markedInfo p2 enabled2 lead2 t2))
      | none => some (JSON_stringify (markedInfo p2 enabled2 lead2 t2)) := by
  cases address with
  | none => simp [addressResolved, handleParkingMarking_parkedLocation]
  | some a =>
    by_cases ha : a = ""
    · simp [addressResolved, addressTruthy, ha, handleParkingMarking_parkedLocation]
    · simp [addressResolved, addressTruthy, ha]

/-- C5 fails on the code: a mark with a 30 minute reminder followed by a mark
with the reminder not requested leaves the first timer pending, still referred
to by `reminderTimeout`, and its expiry shows a reminder although the stored
record has `reminderEnabled` false. -/
theorem C5_mark_without_reminder_keeps_timer :
    (handleParkingMarking ⟨3, 4⟩ false (.num 30) 1000
        (handleParkingMarking ⟨1, 2⟩ true (.num 30) 0 (initialState none))).timers =
      [{ id := 1, delay := .num 1800000 }] ∧
    (handleParkingMarking ⟨3, 4⟩ false (.num 30) 1000
        (handleParkingMarking ⟨1, 2⟩ true (.num 30) 0 (initialState none))).reminderTimeout =
      some 1 ∧
    (handleParkingMarking ⟨3, 4⟩ false (.num 30) 1000
        (handleParkingMarking ⟨1, 2⟩ true (.num 30) 0 (initialState none))).parkedLocation =
      some { position := some ⟨3, 4⟩, address := some "Getting address...",
             timestamp := some 1000, reminderEnabled := false, reminderTime := some 30 } ∧
    (timerFires 1 (handleParkingMarking ⟨3, 4⟩ false (.num 30) 1000
        (handleParkingMarking ⟨1, 2⟩ true (.num 30) 0 (initialState none)))).remindersShown =
      1 := by
  norm_num [handleParkingMarking, scheduleReminder, initialState, markedInfo, JSON_stringify,
    JSNumber.gt, JSNumber.lt, JSNumber.mul, roundDouble, timerFires, showReminderMessage]

/-! ## Reminder scheduling and restore -/

theorem handleParkingMarking_armed (pos : Position) (reminderTime : JSNumber) (now : ℤ)
    (s : State) (h : TimerInvariant s) (hgt : reminderTime.gt (.num 0) = true) :
    (handleParkingMarking pos true reminderTime now s).timers =
        [{ id := s.nextTimerId, delay := (reminderTime.mul (.num 60)).mul (.num 1000) }] ∧
      (handleParkingMarking pos true reminderTime now s).reminderTimeout = some s.nextTimerId ∧
      (handleParkingMarking pos true reminderTime now s).nextTimerId = s.nextTimerId + 1 := by
  unfold handleParkingMarking
  simp only [hgt, Bool.and_self, if_true]
  refine ⟨?_, ?_, ?_⟩
  · exact scheduleReminder_timers _ h
  · rw [scheduleReminder_reminderTimeout]
  · rw [scheduleReminder_nextTimerId]

/-- C6. Two successive marks with the reminder enabled and positive leads `L1`
then `L2` minutes, no timer expiring in between: after the second mark the
first mark's timer is no longer pending, exactly one timer is pending, it is
the one `reminderTimeout` refers to, its delay is `L2 * 60 * 1000` as the
script computes it (exactly `L2 * 60000` ms while that stays within `2 ^ 53`),
and timer expiries show at most one reminder from then on. -/
theorem C6_remark_replaces_deadline (p1 p2 : Position) (L1 L2 : ℕ) (t1 t2 : ℤ) (s : State)
    (h : TimerInvariant s) (h1 : 0 < L1) (h2 : 0 < L2) :
    (handleParkingMarking p1 true (.num L1) t1 s).timers =
        [{ id := s.nextTimerId, delay := ((JSNumber.num L1).mul (.num 60)).mul (.num 1000) }] ∧
      (handleParkingMarking p2 true (.num L2) t2
          (handleParkingMarking p1 true (.num L1) t1 s)).timers =
        [{ id := s.nextTimerId + 1,
           delay := ((JSNumber.num L2).mul (.num 60)).mul (.num 1000) }] ∧
      (handleParkingMarking p2 true (.num L2) t2
          (handleParkingMarking p1 true (.num L1) t1 s)).reminderTimeout =
        some (s.nextTimerId + 1) ∧
      (L2 * 60000 ≤ 2 ^ 53 →
        ((JSNumber.num L2).mul (.num 60)).mul (.num 1000) = .num ((L2 : ℚ) * 60000)) ∧
      timerFires s.nextTimerId (handleParkingMarking p2 true (.num L2) t2
          (handleParkingMarking p1 true (.num L1) t1 s)) =
        handleParkingMarking p2 true (.num L2) t2 (handleParkingMarking p1 true (.num L1) t1 s) ∧
      ∀ ids : List ℕ,
        (fireAll ids (handleParkingMarking p2 true (.num L2) t2
          (handleParkingMarking p1 true (.num L1) t1 s))).remindersShown ≤
        (handleParkingMarking p2 true (.num L2) t2
          (handleParkingMarking p1 true (.num L1) t1 s)).remindersShown + 1 := by
  have g1 : (JSNumber.num (L1 : ℚ)).gt (.num 0) = true := by
    simp [JSNumber.gt, JSNumber.lt, h1]
  have g2 : (JSNumber.num (L2 : ℚ)).gt (.num 0) = true := by
    simp [JSNumber.gt, JSNumber.lt, h2]
  obtain ⟨a1, _, a3⟩ := handleParkingMarking_armed p1 (.num L1) t1 s h g1
  have hinv1 : TimerInvariant (handleParkingMarking p1 true (.num L1) t1 s) :=
    handleParkingMarking_invariant p1 true _ t1 h
  obtain ⟨b1, b2, _⟩ := handleParkingMarking_armed p2 (.num L2) t2 _ hinv1 g2
  rw [a3] at b1 b2
  refine ⟨a1, b1, b2, JSNumber.minutes_to_ms L2, ?_, ?_⟩
  · unfold timerFires
    rw [b1]
    simp
  · intro ids
    have := fireAll_shown_le ids (handleParkingMarking p2 true (.num L2) t2
      (handleParkingMarking p1 true (.num L1) t1 s))
    rw [b1] at this
    simpa using this

/-- C6, at leads of 30 then 45 minutes on a fresh page: the pending timer is
the second one, armed for 2700000 ms. -/
theorem C6_remark_replaces_deadline_witness :
    TimerInvariant (initialState none) ∧ 0 < 30 ∧ 0 < 45 ∧
      (handleParkingMarking ⟨3, 4⟩ true (.num ((45 : ℕ) : ℚ)) 1000
          (handleParkingMarking ⟨1, 2⟩ true (.num ((30 : ℕ) : ℚ)) 0 (initialState none))).timers =
        [{ id := (initialState none).nextTimerId + 1,
           delay := ((JSNumber.num ((45 : ℕ) : ℚ)).mul (.num 60)).mul (.num 1000) }] ∧
      ((JSNumber.num ((45 : ℕ) : ℚ)).mul (.num 60)).mul (.num 1000) = .num (((45 : ℕ) : ℚ) * 60000) :=
  ⟨initialState_invariant none, by decide, by decide,
    (C6_remark_replaces_deadline ⟨1, 2⟩ ⟨3, 4⟩ 30 45 0 1000 (initialState none)
      (initialState_invariant none) (by decide) (by decide)).2.1,
    (C6_remark_replaces_deadline ⟨1, 2⟩ ⟨3, 4⟩ 30 45 0 1000 (initialState none)
      (initialState_invariant none) (by decide) (by decide)).2.2.2.1 (by norm_num)⟩

/-- Restore before the deadline, for whole positive leads within the exactly
representable range: no reminder is shown and exactly one timer is pending,
referred to by `reminderTimeout`; its delay is the remaining time taken through
the division by `60000` and the two products of `scheduleReminder`. -/
theorem checkExistingReminder_before_deadline (r : SavedInfo) (L : ℕ) (ts now : ℤ) (s : State)
    (hinv : TimerInvariant s) (hslot : s.parkedLocation = some r)
    (henabled : r.reminderEnabled = true) (hlead : r.reminderTime = some (L : ℚ)) (hL : 0 < L)
    (hts : r.timestamp = some ts) (hbound : L * 60000 ≤ 2 ^ 53)
    (hsum : (ts + L * 60000).natAbs ≤ 2 ^ 53) (hrem : (ts + L * 60000 - now).natAbs ≤ 2 ^ 53)
    (hnow : now < ts + L * 60000) :
    (checkExistingReminder now s).remindersShown = s.remindersShown ∧
      (checkExistingReminder now s).reminderTimeout = some s.nextTimerId ∧
      (checkExistingReminder now s).timers =
        [{ id := s.nextTimerId,
           delay := (((JSNumber.num ((ts : ℚ) + (L : ℚ) * 60000 - (now : ℚ))).div
             (.num 60000)).mul (.num 60)).mul (.num 1000) }] := by
  have hms := JSNumber.minutes_to_ms L hbound
  have hadd : (JSNumber.num (ts : ℚ)).add (.num ((L : ℚ) * 60000)) =
      .num ((ts : ℚ) + (L : ℚ) * 60000) :=
    JSNumber.add_exact _ _ (ts + L * 60000) (by push_cast; ring) hsum
  have hsub : (JSNumber.num ((ts : ℚ) + (L : ℚ) * 60000)).sub (.num (now : ℚ)) =
      .num ((ts : ℚ) + (L : ℚ) * 60000 - (now : ℚ)) :=
    JSNumber.sub_exact _ _ (ts + L * 60000 - now) (by push_cast; ring) hrem
  have hlt : (now : ℚ) < (ts : ℚ) + (L : ℚ) * 60000 := by exact_mod_cast hnow
  have hge : (JSNumber.num (now : ℚ)).ge (.num ((ts : ℚ) + (L : ℚ) * 60000)) = false := by
    simp [JSNumber.ge, hlt]
  have hlt2 : (JSNumber.num (now : ℚ)).lt (.num ((ts : ℚ) + (L : ℚ) * 60000)) = true := by
    simp [JSNumber.lt, hlt]
  have hne : (L : ℚ) ≠ 0 := by exact_mod_cast (Nat.pos_iff_ne_zero.mp hL)
  unfold checkExistingReminder
  simp only [hslot, henabled, hlead, hts, savedLeadTruthy, JSNumber.truthy, savedLead,
    dateGetTime, hms, hadd, hsub, hge, hlt2, hne, ne_eq, not_false_eq_true, decide_True,
    Bool.and_self, if_true, Bool.false_eq_true, if_false]
  refine ⟨?_, ?_, ?_⟩
  · rw [scheduleReminder_remindersShown]
  · rw [scheduleReminder_reminderTimeout]
  · exact scheduleReminder_timers _ hinv

theorem roundDouble_eq_roundRatio (q : ℚ) (n d : ℕ) (hn : q.num = (n : ℤ)) (hd : q.den = d)
    (hd1 : d ≠ 1) : roundDouble q = roundRatio false n d := by
  unfold roundDouble
  rw [if_neg (by rw [hd]; exact fun h => hd1 h.1), hn, hd]
  have hneg : ¬ ((n : ℤ) < 0) := by omega
  simp [hneg]

/-- 115 ms expressed in minutes, as a double. -/
theorem div_115_60000 :
    (JSNumber.num 115).div (.num 60000) = .num (8839064868652493 / 2 ^ 62) := by
  have h : roundDouble ((115 : ℚ) / 60000) = roundRatio false 23 12000 :=
    roundDouble_eq_roundRatio _ 23 12000 (by norm_num) (by norm_num) (by decide)
  have hv : roundRatio false 23 12000 = .num (mkRat 8839064868652493 (2 ^ 62)) := by decide
  have hq : mkRat 8839064868652493 (2 ^ 62) = (8839064868652493 / 2 ^ 62 : ℚ) := by
    rw [Rat.mkRat_eq_div]; norm_num
  simp only [JSNumber.div]
  rw [if_neg (by norm_num), h, hv, hq]

/-- The first product of `scheduleReminder` on that value. -/
theorem mul_60_of_115 :
    (JSNumber.num (8839064868652493 / 2 ^ 62)).mul (.num 60) =
      .num (517913957147607 / 2 ^ 52) := by
  have h : roundDouble ((8839064868652493 / 2 ^ 62 : ℚ) * 60) =
      roundRatio false 132585973029787395 (2 ^ 60) :=
    roundDouble_eq_roundRatio _ 132585973029787395 (2 ^ 60) (by norm_num) (by norm_num)
      (by decide)
  have hv : roundRatio false 132585973029787395 (2 ^ 60) =
      .num (mkRat 517913957147607 (2 ^ 52)) := by decide
  have hq : mkRat 517913957147607 (2 ^ 52) = (517913957147607 / 2 ^ 52 : ℚ) := by
    rw [Rat.mkRat_eq_div]; norm_num
  simp only [JSNumber.mul]
  rw [h, hv, hq]

/-- The second product: one unit in the last place below 115. -/
theorem mul_1000_of_115 :
    (JSNumber.num (517913957147607 / 2 ^ 52)).mul (.num 1000) = .num (115 - 1 / 2 ^ 46) := by
  have h : roundDouble ((517913957147607 / 2 ^ 52 : ℚ) * 1000) =
      roundRatio false 64739244643450875 (2 ^ 49) :=
    roundDouble_eq_roundRatio _ 64739244643450875 (2 ^ 49) (by norm_num) (by norm_num)
      (by decide)
  have hv : roundRatio false 64739244643450875 (2 ^ 49) =
      .num (mkRat 8092405580431359 (2 ^ 46)) := by decide
  have hq : mkRat 8092405580431359 (2 ^ 46) = (115 - 1 / 2 ^ 46 : ℚ) := by
    rw [Rat.mkRat_eq_div]; norm_num
  simp only [JSNumber.mul]
  rw [h, hv, hq]

/-- C8 fails on the code: a record marked at `t = 0` with a lead of 1 minute is
restored 115 ms before its deadline (`now = 59885`).  No reminder is shown and
exactly one timer is armed, but its delay is not `deadline - now = 115`: the
division by `60000` and the products by `60` and `1000` round, and the delay
handed to `setTimeout` is `115 - 2⁻⁴⁶`, below the remaining time. -/
theorem C8_restore_delay_rounds_below :
    (checkExistingReminder 59885 (initialState (some
        { position := some ⟨1, 2⟩, address := some "Getting address...", timestamp := some 0,
          reminderEnabled := true, reminderTime := some 1 }))).timers =
      [{ id := 1, delay := .num (115 - 1 / 2 ^ 46) }] ∧
    (checkExistingReminder 59885 (initialState (some
        { position := some ⟨1, 2⟩, address := some "Getting address...", timestamp := some 0,
          reminderEnabled := true, reminderTime := some 1 }))).remindersShown = 0 ∧
    (115 - 1 / 2 ^ 46 : ℚ) < 60000 - 59885 := by
  have e : checkExistingReminder 59885 (initialState (some
        { position := some ⟨1, 2⟩, address := some "Getting address...", timestamp := some 0,
          reminderEnabled := true, reminderTime := some 1 })) =
      scheduleReminder ((JSNumber.num 115).div (.num 60000))
        { initialState (some
          { position := some ⟨1, 2⟩, address := some "Getting address...", timestamp := some 0,
            reminderEnabled := true, reminderTime := some 1 }) with findButtonVisible := true } := by
    norm_num [checkExistingReminder, initialState, savedLeadTruthy, savedLead, JSNumber.truthy,
      dateGetTime, JSNumber.mul, JSNumber.add, JSNumber.sub, JSNumber.neg, JSNumber.ge,
      JSNumber.lt, roundDouble]
  rw [e, div_115_60000]
  refine ⟨?_, ?_, by norm_num⟩
  · simp only [scheduleReminder, initialState, List.nil_append, mul_60_of_115, mul_1000_of_115]
  · simp only [scheduleReminder, initialState]

/-- C9 fails on the code: with a slot whose record has no `position`,
`checkExistingReminder` still reveals the find-car button and shows the
reminder (restore at minute 31 of a 30 minute lead) or arms a timer (restore at
minute 10), whereas with an absent slot it changes nothing. -/
theorem C9_restore_acts_on_record_without_position :
    (checkExistingReminder 1860000 (initialState (some
        { position := none, address := none, timestamp := some 0,
          reminderEnabled := true, reminderTime := some 30 }))).remindersShown = 1 ∧
    (checkExistingReminder 1860000 (initialState (some
        { position := none, address := none, timestamp := some 0,
          reminderEnabled := true, reminderTime := some 30 }))).findButtonVisible = true ∧
    (checkExistingReminder 600000 (initialState (some
        { position := none, address := none, timestamp := some 0,
          reminderEnabled := true, reminderTime := some 30 }))).timers =
      [{ id := 1, delay := .num 1200000 }] ∧
    checkExistingReminder 1860000 (initialState none) = initialState none := by
  refine ⟨?_, ?_, ?_, rfl⟩
  · norm_num [checkExistingReminder, initialState, savedLeadTruthy, savedLead, JSNumber.truthy,
      dateGetTime, JSNumber.mul, JSNumber.add, JSNumber.ge, roundDouble, showReminderMessage]
  · norm_num [checkExistingReminder, initialState, savedLeadTruthy, savedLead, JSNumber.truthy,
      dateGetTime, JSNumber.mul, JSNumber.add, JSNumber.ge, roundDouble, showReminderMessage]
  · norm_num [checkExistingReminder, initialState, savedLeadTruthy, savedLead, JSNumber.truthy,
      dateGetTime, JSNumber.mul, JSNumber.add, JSNumber.sub, JSNumber.neg, JSNumber.div,
      JSNumber.ge, JSNumber.lt, roundDouble, scheduleReminder]

/-- C10 fails on the code: marking with the reminder enabled and a lead of
`-5` arms no timer but stores the lead; `checkExistingReminder` on the stored
record, one second later on a fresh page, shows the reminder at once. -/
theorem C10_negative_lead_fires_on_restore :
    (handleParkingMarking ⟨1, 2⟩ true (.num (-5)) 0 (initialState none)).timers = [] ∧
    (handleParkingMarking ⟨1, 2⟩ true (.num (-5)) 0 (initialState none)).parkedLocation =
      some { position := some ⟨1, 2⟩, address := some "Getting address...", timestamp := some 0,
             reminderEnabled := true, reminderTime := some (-5) } ∧
    (checkExistingReminder 1000 (initialState (some
        { position := some ⟨1, 2⟩, address := some "Getting address...", timestamp := some 0,
          reminderEnabled := true, reminderTime := some (-5) }))).remindersShown = 1 := by
  refine ⟨?_, ?_, ?_⟩
  · norm_num [handleParkingMarking, JSNumber.gt, JSNumber.lt, initialState]
  · norm_num [handleParkingMarking, JSNumber.gt, JSNumber.lt, initialState, JSON_stringify,
      markedInfo]
  · norm_num [checkExistingReminder, initialState, savedLeadTruthy, savedLead, JSNumber.truthy,
      dateGetTime, JSNumber.mul, JSNumber.add, JSNumber.ge, roundDouble, showReminderMessage]

/-! ## Reachable states -/

theorem clearParking_nextTimerId (s : State) : (clearParking s).nextTimerId = s.nextTimerId := by
  unfold clearParking
  cases hr : s.reminderTimeout with
  | none => simp [hr]
  | some k => by_cases hk : handleTruthy (some k) = true <;> simp [hr, hk, clearTimeout]

theorem clearParking_invariant {s : State} (h : TimerInvariant s) :
    TimerInvariant (clearParking s) := by
  refine ⟨?_, ?_, ?_, ?_⟩
  · rw [clearParking_nextTimerId]; exact h.1
  · rw [clearParking_timers h]; simp
  · intro k hk
    rw [clearParking_reminderTimeout h] at hk
    cases hk
  · intro t ht
    rw [clearParking_timers h] at ht
    cases ht

theorem timerFires_invariant (id : ℕ) {s : State} (h : TimerInvariant s) :
    TimerInvariant (timerFires id s) := by
  unfold timerFires
  split
  · obtain ⟨h1, h2, h3, h4⟩ := h
    refine ⟨h1, ?_, h3, ?_⟩
    · exact le_trans (List.length_filter_le _ _) h2
    · intro t ht
      exact h4 t (List.mem_of_mem_filter ht)
  · exact h

theorem checkExistingReminder_invariant (now : ℤ) {s : State} (h : TimerInvariant s) :
    TimerInvariant (checkExistingReminder now s) := by
  unfold checkExistingReminder
  split
  · exact h
  · simp only
    split
    · split
      · exact h
      · split
        · exact scheduleReminder_invariant _ h
        · exact h
    · exact h

theorem addressResolved_invariant (parkingInfo : ParkingInfo) (address : Option String)
    {s : State} (h : TimerInvariant s) : TimerInvariant (addressResolved parkingInfo address s) := by
  unfold addressResolved
  split
  · split
    · exact h
    · exact h
  · exact h

theorem step_invariant (a : Action) {s : State} (h : TimerInvariant s) :
    TimerInvariant (step s a) := by
  cases a with
  | mark r => exact handleParkingMarking_invariant r.pos r.reminderEnabled r.reminderTime r.now h
  | clear => exact clearParking_invariant h
  | restore now => exact checkExistingReminder_invariant now h
  | fire id => exact timerFires_invariant id h
  | resolved parkingInfo address => exact addressResolved_invariant parkingInfo address h

theorem run_invariant (actions : List Action) {s : State} (h : TimerInvariant s) :
    TimerInvariant (run actions s) := by
  induction actions generalizing s with
  | nil => exact h
  | cons a rest ih => exact ih (step_invariant a h)

/-- C11. In every state reached from a freshly loaded page by any sequence of
`handleParkingMarking`, `clearParking`, `checkExistingReminder`, timer-expiry
and address-completion steps, at most one reminder timer is pending, and a
pending one is the timer `reminderTimeout` refers to. -/
theorem C11_at_most_one_pending_reminder (slot : Option SavedInfo) (actions : List Action) :
    (run actions (initialState slot)).timers.length ≤ 1 ∧
      ∀ t ∈ (run actions (initialState slot)).timers,
        (run actions (initialState slot)).reminderTimeout = some t.id := by
  have h := run_invariant actions (initialState_invariant slot)
  exact ⟨h.2.1, h.2.2.2⟩

theorem timerFires_reminderTimeout (id : ℕ) (s : State) :
    (timerFires id s).reminderTimeout = s.reminderTimeout := by
  unfold timerFires
  split <;> rfl

/-- C12, as stated, fails: after the timer armed by `scheduleReminder(30)` on a
fresh page has expired, `reminderTimeout` is not `null`; it is `null` after
`clearParking`. -/
theorem C12_handle_kept_after_fire :
    (timerFires 1 (scheduleReminder (.num 30) (initialState none))).remindersShown = 1 ∧
      ¬ (timerFires 1 (scheduleReminder (.num 30) (initialState none))).reminderTimeout = none ∧
      (clearParking (scheduleReminder (.num 30) (initialState none))).reminderTimeout = none := by
  refine ⟨?_, ?_, clearParking_reminderTimeout (scheduleReminder_invariant _
    (initialState_invariant none))⟩
  · simp [timerFires, scheduleReminder, initialState, showReminderMessage]
  · rw [timerFires_reminderTimeout, scheduleReminder_reminderTimeout]
    simp

/-- C12, amended. For every arm via `scheduleReminder`, when the timer callback
runs it calls `showReminderMessage` exactly once and no reminder timer is
pending afterwards; `reminderTimeout` is not reset by the callback and still
holds the handle of the expired timer, whose second expiry does nothing. -/
theorem C12_after_fire (minutes : JSNumber) (s : State) (h : TimerInvariant s) :
    (timerFires s.nextTimerId (scheduleReminder minutes s)).remindersShown =
        s.remindersShown + 1 ∧
      (timerFires s.nextTimerId (scheduleReminder minutes s)).timers = [] ∧
      (timerFires s.nextTimerId (scheduleReminder minutes s)).reminderTimeout =
        some s.nextTimerId ∧
      timerFires s.nextTimerId (timerFires s.nextTimerId (scheduleReminder minutes s)) =
        timerFires s.nextTimerId (scheduleReminder minutes s) := by
  have ht := scheduleReminder_timers minutes h
  have hs := scheduleReminder_remindersShown minutes s
  have hfire : timerFires s.nextTimerId (scheduleReminder minutes s) =
      showReminderMessage { scheduleReminder minutes s with timers := [] } := by
    unfold timerFires
    rw [ht]
    simp
  have hnil : (timerFires s.nextTimerId (scheduleReminder minutes s)).timers = [] := by
    rw [hfire]; rfl
  refine ⟨?_, hnil, ?_, timerFires_of_no_timers _ hnil⟩
  · rw [hfire]
    simp only [showReminderMessage, hs]
  · rw [timerFires_reminderTimeout, scheduleReminder_reminderTimeout]

/-- C12 amended, at a 30 minute reminder armed on a fresh page. -/
theorem C12_after_fire_witness :
    TimerInvariant (initialState none) ∧
      (timerFires (initialState none).nextTimerId
        (scheduleReminder (.num 30) (initialState none))).reminderTimeout =
        some (initialState none).nextTimerId :=
  ⟨initialState_invariant none,
    (C12_after_fire (.num 30) (initialState none) (initialState_invariant none)).2.2.1⟩

/-! ## Locate -/

/-- C13. When the slot `parkedLocation` is absent, or holds a record without a
position, `findParking` shows one error message (`No parking location saved!`
for an absent slot, `Invalid parking location data. Please mark your spot
again.` for a record without position), requests no position, opens no
directions, and leaves the state, the slot included, exactly as it was. -/
theorem C13_findParking_without_record (supportsGeolocation : Bool) (s : State)
    (h : s.parkedLocation = none ∨ ∃ r, s.parkedLocation = some r ∧ r.position = none) :
    (findParking supportsGeolocation s).2 = s ∧
      (findParking supportsGeolocation s).2.parkedLocation = s.parkedLocation ∧
      (∃ message, (findParking supportsGeolocation s).1 = [.showMessage message "error"]) ∧
      Effect.getCurrentPosition ∉ (findParking supportsGeolocation s).1 ∧
      (∀ origin destination,
        Effect.openDirections origin destination ∉ (findParking supportsGeolocation s).1) ∧
      (s.parkedLocation = none →
        (findParking supportsGeolocation s).1 =
          [.showMessage "No parking location saved!" "error"]) ∧
      ((∃ r, s.parkedLocation = some r ∧ r.position = none) →
        (findParking supportsGeolocation s).1 =
          [.showMessage "Invalid parking location data. Please mark your spot again."
            "error"]) := by
  rcases h with h | ⟨r, hr, hp⟩
  · simp [findParking, h]
  · simp [findParking, hr, hp]

/-- C13, on a fresh page with empty storage and on one whose record lacks the
position. -/
theorem C13_findParking_without_record_witness :
    (findParking true (initialState none)).1 =
        [.showMessage "No parking location saved!" "error"] ∧
      (findParking true (initialState (some
        { position := none, address := none, timestamp := some 0,
          reminderEnabled := true, reminderTime := some 30 }))).1 =
        [.showMessage "Invalid parking location data. Please mark your spot again." "error"] :=
  ⟨(C13_findParking_without_record true (initialState none) (Or.inl rfl)).2.2.2.2.2.1 rfl,
    (C13_findParking_without_record true (initialState (some
        { position := none, address := none, timestamp := some 0,
          reminderEnabled := true, reminderTime := some 30 }))
      (Or.inr ⟨_, rfl, rfl⟩)).2.2.2.2.2.2 ⟨_, rfl, rfl⟩⟩

/-! ## Restore -/

theorem checkExistingReminder_parkedLocation (now : ℤ) (s : State) :
    (checkExistingReminder now s).parkedLocation = s.parkedLocation := by
  unfold checkExistingReminder
  split
  · rfl
  · simp only
    split
    · split
      · rfl
      · split
        · rw [scheduleReminder_parkedLocation]
        · rfl
    · rfl

/-- C14. Restore with the reminder disabled: for every stored record with
`reminderEnabled` false, whatever its `reminderTime` and the clock,
`checkExistingReminder` only reveals the find-car button; it shows no
reminder and neither arms nor cancels a timer (`reminderTimeout`, the pending
timers and the next handle are unchanged). -/
theorem C14_restore_disabled_is_noop (r : SavedInfo) (now : ℤ) (s : State)
    (hslot : s.parkedLocation = some r) (hdisabled : r.reminderEnabled = false) :
    checkExistingReminder now s = { s with findButtonVisible := true } ∧
      (checkExistingReminder now s).remindersShown = s.remindersShown ∧
      (checkExistingReminder now s).timers = s.timers ∧
      (checkExistingReminder now s).reminderTimeout = s.reminderTimeout ∧
      (checkExistingReminder now s).nextTimerId = s.nextTimerId := by
  have e : checkExistingReminder now s = { s with findButtonVisible := true } := by
    unfold checkExistingReminder
    simp [hslot, hdisabled]
  rw [e]
  exact ⟨rfl, rfl, rfl, rfl, rfl⟩

/-- C14, at a record marked without reminder while an earlier timer is still
pending: the restore leaves that timer and `reminderTimeout` alone. -/
theorem C14_restore_disabled_is_noop_witness :
    (checkExistingReminder 5000000
        { initialState (some
            { position := some ⟨3, 4⟩, address := some "Getting address...",
              timestamp := some 1000, reminderEnabled := false, reminderTime := some 30 }) with
          reminderTimeout := some 1, timers := [{ id := 1, delay := .num 1800000 }],
          nextTimerId := 2 }).timers = [{ id := 1, delay := .num 1800000 }] :=
  (C14_restore_disabled_is_noop _ 5000000
        { initialState (some
            { position := some ⟨3, 4⟩, address := some "Getting address...",
              timestamp := some 1000, reminderEnabled := false, reminderTime := some 30 }) with
          reminderTimeout := some 1, timers := [{ id := 1, delay := .num 1800000 }],
          nextTimerId := 2 } rfl rfl).2.2.1

/-! ## Restore at or after the deadline -/

theorem JSNumber.ge_of_le (a b : ℤ) (d : JSNumber) (hab : a ≤ b)
    (h : (JSNumber.num (a : ℚ)).ge d = true) : (JSNumber.num (b : ℚ)).ge d = true := by
  cases d with
  | num q =>
    simp only [JSNumber.ge, decide_eq_true_eq] at h ⊢
    have : (a : ℚ) ≤ (b : ℚ) := by exact_mod_cast hab
    exact le_trans h this
  | nan => simp [JSNumber.ge] at h
  | inf t => simpa [JSNumber.ge] using h

/-- The deadline `parkingTime + reminderTime * 60 * 1000` of line 163 is exact
for a whole lead while the values stay within `2 ^ 53`. -/
theorem deadline_of_whole_lead (L : ℕ) (ts : ℤ) (hbound : L * 60000 ≤ 2 ^ 53)
    (hsum : (ts + L * 60000).natAbs ≤ 2 ^ 53) :
    (JSNumber.num (ts : ℚ)).add (((JSNumber.num (L : ℚ)).mul (.num 60)).mul (.num 1000)) =
      .num ((ts : ℚ) + (L : ℚ) * 60000) := by
  rw [JSNumber.minutes_to_ms L hbound]
  exact JSNumber.add_exact _ _ (ts + L * 60000) (by push_cast; ring) hsum

theorem checkExistingReminder_of_ge (r : SavedInfo) (q : ℚ) (ts now : ℤ) (s : State)
    (hslot : s.parkedLocation = some r) (henabled : r.reminderEnabled = true)
    (hlead : r.reminderTime = some q) (hq : q ≠ 0) (hts : r.timestamp = some ts)
    (hge : (JSNumber.num (now : ℚ)).ge
      ((JSNumber.num (ts : ℚ)).add (((JSNumber.num q).mul (.num 60)).mul (.num 1000))) = true) :
    checkExistingReminder now s = showReminderMessage { s with findButtonVisible := true } := by
  unfold checkExistingReminder
  simp only [hslot, henabled, hlead, hts, savedLeadTruthy, JSNumber.truthy, savedLead,
    dateGetTime, hge, hq, ne_eq, not_false_eq_true, decide_True, Bool.and_self, if_true]

theorem checkExistingReminder_of_lt (r : SavedInfo) (q : ℚ) (ts now : ℤ) (s : State)
    (hslot : s.parkedLocation = some r) (henabled : r.reminderEnabled = true)
    (hlead : r.reminderTime = some q) (hq : q ≠ 0) (hts : r.timestamp = some ts)
    (hge : (JSNumber.num (now : ℚ)).ge
      ((JSNumber.num (ts : ℚ)).add (((JSNumber.num q).mul (.num 60)).mul (.num 1000))) = false)
    (hlt : (JSNumber.num (now : ℚ)).lt
      ((JSNumber.num (ts : ℚ)).add (((JSNumber.num q).mul (.num 60)).mul (.num 1000))) = true) :
    checkExistingReminder now s =
      scheduleReminder
        ((((JSNumber.num (ts : ℚ)).add (((JSNumber.num q).mul (.num 60)).mul (.num 1000))).sub
          (.num (now : ℚ))).div (.num 60000))
        { s with findButtonVisible := true } := by
  unfold checkExistingReminder
  simp only [hslot, henabled, hlead, hts, savedLeadTruthy, JSNumber.truthy, savedLead,
    dateGetTime, hge, hlt, hq, ne_eq, not_false_eq_true, decide_True, Bool.and_self, if_true,
    Bool.false_eq_true, if_false]

/-- The reminder is due at clock `now`: either `now` is at or after the
deadline as line 163 computes it, or the lead is a whole number `L` of minutes
within the exact range and `now` is at or after `ts + L * 60000`. -/
theorem ge_deadline_of_due (q : ℚ) (ts now : ℤ)
    (hnow : (JSNumber.num (now : ℚ)).ge
        ((JSNumber.num (ts : ℚ)).add (((JSNumber.num q).mul (.num 60)).mul (.num 1000))) = true ∨
      ∃ L : ℕ, q = (L : ℚ) ∧ L * 60000 ≤ 2 ^ 53 ∧ (ts + L * 60000).natAbs ≤ 2 ^ 53 ∧
        ts + L * 60000 ≤ now) :
    (JSNumber.num (now : ℚ)).ge
      ((JSNumber.num (ts : ℚ)).add (((JSNumber.num q).mul (.num 60)).mul (.num 1000))) = true := by
  rcases hnow with h | ⟨L, hL, hbound, hsum, hle⟩
  · exact h
  · subst hL
    rw [deadline_of_whole_lead L ts hbound hsum]
    have : (ts : ℚ) + (L : ℚ) * 60000 ≤ (now : ℚ) := by exact_mod_cast hle
    simp [JSNumber.ge, this]

/-- The double nearest `1.077`, times 60. -/
theorem mul_60_of_1077 :
    (JSNumber.num (606297099834753 / 2 ^ 49)).mul (.num 60) =
      .num (568403531095081 / 2 ^ 43) := by
  have h : roundDouble ((606297099834753 / 2 ^ 49 : ℚ) * 60) =
      roundRatio false 9094456497521295 (2 ^ 47) :=
    roundDouble_eq_roundRatio _ 9094456497521295 (2 ^ 47) (by norm_num) (by norm_num)
      (by decide)
  have hv : roundRatio false 9094456497521295 (2 ^ 47) =
      .num (mkRat 568403531095081 (2 ^ 43)) := by decide
  have hq : mkRat 568403531095081 (2 ^ 43) = (568403531095081 / 2 ^ 43 : ℚ) := by
    rw [Rat.mkRat_eq_div]; norm_num
  simp only [JSNumber.mul]
  rw [h, hv, hq]

/-- That product times 1000: one unit in the last place above 64620. -/
theorem mul_1000_of_1077 :
    (JSNumber.num (568403531095081 / 2 ^ 43)).mul (.num 1000) = .num (64620 + 1 / 2 ^ 37) := by
  have h : roundDouble ((568403531095081 / 2 ^ 43 : ℚ) * 1000) =
      roundRatio false 71050441386885125 (2 ^ 40) :=
    roundDouble_eq_roundRatio _ 71050441386885125 (2 ^ 40) (by norm_num) (by norm_num)
      (by decide)
  have hv : roundRatio false 71050441386885125 (2 ^ 40) =
      .num (mkRat 8881305173360641 (2 ^ 37)) := by decide
  have hq : mkRat 8881305173360641 (2 ^ 37) = (64620 + 1 / 2 ^ 37 : ℚ) := by
    rw [Rat.mkRat_eq_div]; norm_num
  simp only [JSNumber.mul]
  rw [h, hv, hq]

/-- The deadline line 163 computes for a record marked at `t = 0` with lead
`1.077`: `64620.00000000001`, above the exact `1.077 * 60000`. -/
theorem deadline_of_1077 :
    (JSNumber.num ((0 : ℤ) : ℚ)).add
        (((JSNumber.num (606297099834753 / 2 ^ 49)).mul (.num 60)).mul (.num 1000)) =
      .num (64620 + 1 / 2 ^ 37) := by
  have h : roundDouble (((0 : ℤ) : ℚ) + (64620 + 1 / 2 ^ 37)) =
      roundRatio false 8881305173360641 (2 ^ 37) :=
    roundDouble_eq_roundRatio _ 8881305173360641 (2 ^ 37) (by norm_num) (by norm_num)
      (by decide)
  have hv : roundRatio false 8881305173360641 (2 ^ 37) =
      .num (mkRat 8881305173360641 (2 ^ 37)) := by decide
  have hq : mkRat 8881305173360641 (2 ^ 37) = (64620 + 1 / 2 ^ 37 : ℚ) := by
    rw [Rat.mkRat_eq_div]; norm_num
  rw [mul_60_of_1077, mul_1000_of_1077]
  simp only [JSNumber.add]
  rw [h, hv, hq]

/-- With a stored lead of `1.077` and mark time 0, a restore at clock 64620
takes the arming branch. -/
theorem checkExistingReminder_1077 (r : SavedInfo) (s : State)
    (hslot : s.parkedLocation = some r) (henabled : r.reminderEnabled = true)
    (hlead : r.reminderTime = some (606297099834753 / 2 ^ 49)) (hts : r.timestamp = some 0) :
    (checkExistingReminder 64620 s).remindersShown = s.remindersShown ∧
      (checkExistingReminder 64620 s).reminderTimeout = some s.nextTimerId := by
  have hge : (JSNumber.num ((64620 : ℤ) : ℚ)).ge
      ((JSNumber.num ((0 : ℤ) : ℚ)).add
        (((JSNumber.num (606297099834753 / 2 ^ 49)).mul (.num 60)).mul (.num 1000))) = false := by
    rw [deadline_of_1077]
    norm_num [JSNumber.ge]
  have hlt : (JSNumber.num ((64620 : ℤ) : ℚ)).lt
      ((JSNumber.num ((0 : ℤ) : ℚ)).add
        (((JSNumber.num (606297099834753 / 2 ^ 49)).mul (.num 60)).mul (.num 1000))) = true := by
    rw [deadline_of_1077]
    norm_num [JSNumber.lt]
  rw [checkExistingReminder_of_lt r _ 0 64620 s hslot henabled hlead (by norm_num) hts hge hlt]
  exact ⟨scheduleReminder_remindersShown _ _, scheduleReminder_reminderTimeout _ _⟩

/-- C7, as stated, fails: a record marked at `t = 0` whose stored lead is
`1.077` minutes (the double nearest to it) is restored at clock 64620, at or
after `timestamp + L * 60000`; line 163 computes the deadline
`64620.00000000001`, so no reminder is shown and a timer is armed instead. -/
theorem C7_fractional_lead_arms_instead :
    ((0 : ℚ) < 606297099834753 / 2 ^ 49 ∧
      (0 : ℚ) + 606297099834753 / 2 ^ 49 * 60000 ≤ 64620) ∧
    (checkExistingReminder 64620 (initialState (some
        { position := some ⟨1, 2⟩, address := some "Main St", timestamp := some 0,
          reminderEnabled := true,
          reminderTime := some (606297099834753 / 2 ^ 49) }))).remindersShown = 0 ∧
    (checkExistingReminder 64620 (initialState (some
        { position := some ⟨1, 2⟩, address := some "Main St", timestamp := some 0,
          reminderEnabled := true,
          reminderTime := some (606297099834753 / 2 ^ 49) }))).reminderTimeout = some 1 :=
  ⟨by norm_num, checkExistingReminder_1077 _ _ rfl rfl rfl rfl⟩

/-- C7, amended. Restore at or after the deadline: the slot holds a record
with the reminder enabled, a positive lead and mark time `ts`, and the clock
`now` is at or after the deadline as line 163 computes it in double
arithmetic, `ts + lead * 60 * 1000`; for a whole lead of `L` minutes within
the exactly representable range that is any `now` with `ts + L * 60000 ≤ now`.
Then `checkExistingReminder` calls `showReminderMessage` exactly once and
performs no `setTimeout`: the pending timers, `reminderTimeout` and the next
handle are unchanged. -/
theorem C7_restore_past_deadline (r : SavedInfo) (q : ℚ) (ts now : ℤ) (s : State)
    (hslot : s.parkedLocation = some r) (henabled : r.reminderEnabled = true)
    (hlead : r.reminderTime = some q) (hq : 0 < q) (hts : r.timestamp = some ts)
    (hnow : (JSNumber.num (now : ℚ)).ge
        ((JSNumber.num (ts : ℚ)).add (((JSNumber.num q).mul (.num 60)).mul (.num 1000))) = true ∨
      ∃ L : ℕ, q = (L : ℚ) ∧ L * 60000 ≤ 2 ^ 53 ∧ (ts + L * 60000).natAbs ≤ 2 ^ 53 ∧
        ts + L * 60000 ≤ now) :
    (checkExistingReminder now s).remindersShown = s.remindersShown + 1 ∧
      (checkExistingReminder now s).timers = s.timers ∧
      (checkExistingReminder now s).reminderTimeout = s.reminderTimeout ∧
      (checkExistingReminder now s).nextTimerId = s.nextTimerId := by
  rw [checkExistingReminder_of_ge r q ts now s hslot henabled hlead (ne_of_gt hq) hts
    (ge_deadline_of_due q ts now hnow)]
  exact ⟨rfl, rfl, rfl, rfl⟩

/-- C7 amended, at the example of the specification (marked at `t = 0` with a
lead of 30 minutes, restored at minute 31) and at the stored lead `1.077`
restored at clock 64621, past the computed deadline. -/
theorem C7_restore_past_deadline_witness :
    (checkExistingReminder 1860000 (initialState (some
        { position := some ⟨1, 2⟩, address := some "Getting address...", timestamp := some 0,
          reminderEnabled := true, reminderTime := some ((30 : ℕ) : ℚ) }))).remindersShown
        = 0 + 1 ∧
      (checkExistingReminder 1860000 (initialState (some
        { position := some ⟨1, 2⟩, address := some "Getting address...", timestamp := some 0,
          reminderEnabled := true, reminderTime := some ((30 : ℕ) : ℚ) }))).timers = [] ∧
      (checkExistingReminder 64621 (initialState (some
        { position := some ⟨1, 2⟩, address := some "Main St", timestamp := some 0,
          reminderEnabled := true,
          reminderTime := some (606297099834753 / 2 ^ 49) }))).remindersShown = 0 + 1 :=
  ⟨(C7_restore_past_deadline _ _ 0 1860000 (initialState (some
        { position := some ⟨1, 2⟩, address := some "Getting address...", timestamp := some 0,
          reminderEnabled := true, reminderTime := some ((30 : ℕ) : ℚ) }))
      rfl rfl rfl (by norm_num) rfl
      (Or.inr ⟨30, rfl, by norm_num, by norm_num, by norm_num⟩)).1,
    (C7_restore_past_deadline _ _ 0 1860000 (initialState (some
        { position := some ⟨1, 2⟩, address := some "Getting address...", timestamp := some 0,
          reminderEnabled := true, reminderTime := some ((30 : ℕ) : ℚ) }))
      rfl rfl rfl (by norm_num) rfl
      (Or.inr ⟨30, rfl, by norm_num, by norm_num, by norm_num⟩)).2.1,
    (C7_restore_past_deadline _ _ 0 64621 (initialState (some
        { position := some ⟨1, 2⟩, address := some "Main St", timestamp := some 0,
          reminderEnabled := true,
          reminderTime := some (606297099834753 / 2 ^ 49) }))
      rfl rfl rfl (by norm_num) rfl
      (Or.inl (by rw [deadline_of_1077]; norm_num [JSNumber.ge]))).1⟩

/-- C15, as stated, fails: on the record marked at `t = 0` with stored lead
`1.077`, two restores at clock 64620, both at or after
`timestamp + L * 60000`, show no reminder at all, with or without a reload of
the page in between. -/
theorem C15_fractional_lead_never_fires :
    ((0 : ℚ) < 606297099834753 / 2 ^ 49 ∧
      (0 : ℚ) + 606297099834753 / 2 ^ 49 * 60000 ≤ 64620) ∧
    (checkExistingReminder 64620 (initialState (some
        { position := some ⟨1, 2⟩, address := some "Main St", timestamp := some 0,
          reminderEnabled := true,
          reminderTime := some (606297099834753 / 2 ^ 49) }))).remindersShown = 0 ∧
    (checkExistingReminder 64620 (checkExistingReminder 64620 (initialState (some
        { position := some ⟨1, 2⟩, address := some "Main St", timestamp := some 0,
          reminderEnabled := true,
          reminderTime := some (606297099834753 / 2 ^ 49) })))).remindersShown = 0 ∧
    (checkExistingReminder 64620 (reloadPage (checkExistingReminder 64620 (initialState (some
        { position := some ⟨1, 2⟩, address := some "Main St", timestamp := some 0,
          reminderEnabled := true,
          reminderTime := some (606297099834753 / 2 ^ 49) }))))).remindersShown = 0 := by
  have h1 := (checkExistingReminder_1077 _ (initialState (some
        { position := some ⟨1, 2⟩, address := some "Main St", timestamp := some 0,
          reminderEnabled := true,
          reminderTime := some (606297099834753 / 2 ^ 49) })) rfl rfl rfl rfl).1
  have h2 := (checkExistingReminder_1077 _ (checkExistingReminder 64620 (initialState (some
        { position := some ⟨1, 2⟩, address := some "Main St", timestamp := some 0,
          reminderEnabled := true,
          reminderTime := some (606297099834753 / 2 ^ 49) })))
      (by rw [checkExistingReminder_parkedLocation]; rfl) rfl rfl rfl).1
  have h3 := (checkExistingReminder_1077 _ (reloadPage (checkExistingReminder 64620
      (initialState (some
        { position := some ⟨1, 2⟩, address := some "Main St", timestamp := some 0,
          reminderEnabled := true,
          reminderTime := some (606297099834753 / 2 ^ 49) }))))
      (by simp only [reloadPage, initialState, checkExistingReminder_parkedLocation]; rfl)
      rfl rfl rfl).1
  refine ⟨by norm_num, h1, ?_, ?_⟩
  · rw [h2, h1]
    rfl
  · rw [h3]
    exact h1

/-- C15, amended. Catch-up re-fire: `checkExistingReminder` never writes the
slot `parkedLocation`; so for a record with the reminder enabled and a positive
lead, two restores at `now1 ≤ now2` with no mark or clear in between each show
the reminder, whether or not the page was reloaded in between, provided `now1`
is at or after the deadline as line 163 computes it in double arithmetic,
`ts + lead * 60 * 1000`; for a whole lead of `L` minutes within the exactly
representable range that is any `now1` with `ts + L * 60000 ≤ now1`. -/
theorem C15_catch_up_refire (r : SavedInfo) (q : ℚ) (ts now1 now2 : ℤ) (s : State)
    (hslot : s.parkedLocation = some r) (henabled : r.reminderEnabled = true)
    (hlead : r.reminderTime = some q) (hq : 0 < q) (hts : r.timestamp = some ts)
    (hnow1 : (JSNumber.num (now1 : ℚ)).ge
        ((JSNumber.num (ts : ℚ)).add (((JSNumber.num q).mul (.num 60)).mul (.num 1000))) = true ∨
      ∃ L : ℕ, q = (L : ℚ) ∧ L * 60000 ≤ 2 ^ 53 ∧ (ts + L * 60000).natAbs ≤ 2 ^ 53 ∧
        ts + L * 60000 ≤ now1)
    (hnow2 : now1 ≤ now2) :
    (∀ (now : ℤ) (st : State), (checkExistingReminder now st).parkedLocation = st.parkedLocation) ∧
      (checkExistingReminder now1 s).remindersShown = s.remindersShown + 1 ∧
      (checkExistingReminder now2 (checkExistingReminder now1 s)).remindersShown =
        s.remindersShown + 2 ∧
      (checkExistingReminder now2 (reloadPage (checkExistingReminder now1 s))).remindersShown =
        s.remindersShown + 2 := by
  have hge1 := ge_deadline_of_due q ts now1 hnow1
  have hge2 := JSNumber.ge_of_le now1 now2 _ hnow2 hge1
  have hne : q ≠ 0 := ne_of_gt hq
  have e1 := checkExistingReminder_of_ge r q ts now1 s hslot henabled hlead hne hts hge1
  have hslot1 : (checkExistingReminder now1 s).parkedLocation = some r := by
    rw [checkExistingReminder_parkedLocation, hslot]
  have e2 := checkExistingReminder_of_ge r q ts now2 (checkExistingReminder now1 s)
    hslot1 henabled hlead hne hts hge2
  have hslot2 : (reloadPage (checkExistingReminder now1 s)).parkedLocation = some r := by
    simp only [reloadPage, initialState, hslot1]
  have e3 := checkExistingReminder_of_ge r q ts now2
    (reloadPage (checkExistingReminder now1 s)) hslot2 henabled hlead hne hts hge2
  refine ⟨checkExistingReminder_parkedLocation, ?_, ?_, ?_⟩
  · rw [e1]; rfl
  · rw [e2, e1]; rfl
  · rw [e3, e1]; rfl

/-- C15 amended, at the record of the specification example (marked at
`t = 0`, lead 30 minutes) restored at minute 31 and again, after a reload, at
minute 40. -/
theorem C15_catch_up_refire_witness :
    (checkExistingReminder 2400000 (reloadPage (checkExistingReminder 1860000
        (initialState (some
          { position := some ⟨1, 2⟩, address := some "Getting address...", timestamp := some 0,
            reminderEnabled := true, reminderTime := some ((30 : ℕ) : ℚ) }))))).remindersShown =
      0 + 2 :=
  (C15_catch_up_refire _ _ 0 1860000 2400000
        (initialState (some
          { position := some ⟨1, 2⟩, address := some "Getting address...", timestamp := some 0,
            reminderEnabled := true, reminderTime := some ((30 : ℕ) : ℚ) }))
      rfl rfl rfl (by norm_num) rfl
      (Or.inr ⟨30, rfl, by norm_num, by norm_num, by norm_num⟩) (by norm_num)).2.2.2

/-! ## Clear and enrichment, continued -/

/-- C16. `clearParking` is idempotent: for every state, applying it twice
gives the state that applying it once gives, in particular the same slot, the
same `reminderTimeout` and pending timers, and the same marker; and on a state
with no record and no timer it leaves the slot absent and no timer armed. -/
theorem C16_clearParking_idempotent (s : State) :
    clearParking (clearParking s) = clearParking s ∧
      (clearParking (clearParking s)).parkedLocation = (clearParking s).parkedLocation ∧
      (clearParking (clearParking s)).reminderTimeout = (clearParking s).reminderTimeout ∧
      (clearParking (clearParking s)).timers = (clearParking s).timers ∧
      (clearParking (clearParking s)).marker = (clearParking s).marker ∧
      (s.parkedLocation = none → s.reminderTimeout = none → s.timers = [] →
        (clearParking s).parkedLocation = none ∧ (clearParking s).reminderTimeout = none ∧
          (clearParking s).timers = []) := by
  have e : clearParking (clearParking s) = clearParking s := by
    unfold clearParking
    cases hr : s.reminderTimeout with
    | none => simp [hr]
    | some k =>
      by_cases hk : handleTruthy (some k) = true
      · simp [hr, hk, clearTimeout]
      · simp [hr, hk]
  refine ⟨e, ?_, ?_, ?_, ?_, ?_⟩
  · rw [e]
  · rw [e]
  · rw [e]
  · rw [e]
  · intro _ hr ht
    unfold clearParking
    simp [hr, ht]

/-- C16, on a page with a record and a pending 30 minute reminder, and on a
fresh page with empty storage. -/
theorem C16_clearParking_idempotent_witness :
    clearParking (clearParking (handleParkingMarking ⟨1, 2⟩ true (.num 30) 0 (initialState none)))
        = clearParking (handleParkingMarking ⟨1, 2⟩ true (.num 30) 0 (initialState none)) ∧
      (clearParking (initialState none)).parkedLocation = none ∧
      (clearParking (initialState none)).reminderTimeout = none ∧
      (clearParking (initialState none)).timers = [] :=
  ⟨(C16_clearParking_idempotent
      (handleParkingMarking ⟨1, 2⟩ true (.num 30) 0 (initialState none))).1,
    (C16_clearParking_idempotent (initialState none)).2.2.2.2.2 rfl rfl rfl⟩

/-- C17, as stated, fails: the lookup completes with the empty string, which is
not `null`, and the stored record keeps the address `Getting address...`
instead of taking the resolved value. -/
theorem C17_empty_address_not_written :
    (addressResolved (markedInfo ⟨1, 2⟩ false (.num 30) 5) (some "")
        (handleParkingMarking ⟨1, 2⟩ false (.num 30) 5 (initialState none))).parkedLocation =
      some { position := some ⟨1, 2⟩, address := some "Getting address...", timestamp := some 5,
             reminderEnabled := false, reminderTime := some 30 } ∧
    ¬ (addressResolved (markedInfo ⟨1, 2⟩ false (.num 30) 5) (some "")
        (handleParkingMarking ⟨1, 2⟩ false (.num 30) 5 (initialState none))).parkedLocation =
      some { position := some ⟨1, 2⟩, address := some "", timestamp := some 5,
             reminderEnabled := false, reminderTime := some 30 } := by
  simp [addressResolved, addressTruthy, handleParkingMarking_parkedLocation, JSON_stringify,
    markedInfo]

/-- C17, amended. After `handleParkingMarking(pos)` with no mark or clear in
between, when the address lookup completes with a non-empty address `a` the
slot holds the record written at mark time with only `address` replaced by
`a`; when it completes with no address (`null`, `undefined` or the empty
string) the slot holds the record exactly as written at mark time, its address
still `Getting address...`. -/
theorem C17_enrichment_changes_only_address (pos : Position) (reminderEnabled : Bool)
    (reminderTime : JSNumber) (now : ℤ) (address : Option String) (s : State) :
    (addressResolved (markedInfo pos reminderEnabled reminderTime now) address
        (handleParkingMarking pos reminderEnabled reminderTime now s)).parkedLocation =
      (match address with
      | some a =>
        if a ≠ "" then
          some { JSON_stringify (markedInfo pos reminderEnabled reminderTime now) with
                 address := some a }
        else (handleParkingMarking pos reminderEnabled reminderTime now s).parkedLocation
      | none => (handleParkingMarking pos reminderEnabled reminderTime now s).parkedLocation) ∧
    (handleParkingMarking pos reminderEnabled reminderTime now s).parkedLocation =
      some (JSON_stringify (markedInfo pos reminderEnabled reminderTime now)) ∧
    (JSON_stringify (markedInfo pos reminderEnabled reminderTime now)).address =
      some "Getting address..." := by
  refine ⟨?_, handleParkingMarking_parkedLocation pos reminderEnabled reminderTime now s, rfl⟩
  cases address with
  | none => simp [addressResolved]
  | some a =>
    by_cases ha : a = ""
    · simp [addressResolved, addressTruthy, ha]
    · simp [addressResolved, addressTruthy, ha, JSON_stringify]

end ParkSpot
